import Mathlib

/-!
Shallow embedding of the seat-reservation and booking-confirmation core of
the MunkenNettside theater ticketing system.

Modelled source files:
* `src/app/api/seats/reserve/route.ts` — the `POST` handler that places a
  time-boxed hold on seats (`reservePOST` below).
* the booking-confirmation `POST` handler (seat validation, booking insert,
  seat sale, email dispatch) (`confirmPOST` below).

The Supabase store is modelled as explicit lists of rows; each handler is a
pure function from the store and the request to a response and the new
store.  Store reads and the booking insert are modelled as succeeding; the
two failure channels the code handles explicitly — the try/catch around the
expired-reservation cleanup write, and the email collaborator's
success/failure — are modelled as boolean parameters.  Concurrent writers
that may change the store between the availability check and the
conditional update of the reserve handler are modelled by an arbitrary
`interfere` function applied to the store between the two phases.
Timestamps are milliseconds since the epoch (`Nat`), matching
`Date.now()` / `getTime()`.
-/

/-- JS `.toLowerCase()` on the relevant ASCII statuses (`String.toLower`,
character by character). -/
def strLower (s : String) : String := String.mk (s.data.map Char.toLower)

/-- A row of the `seats` table.  `status` and `reserved_until` are nullable
in the store, hence `Option`.  `reserved_until` is the `getTime()` value of
the stored timestamp. -/
structure Seat where
  id : String
  show_id : String
  status : Option String
  reserved_until : Option Nat
  row : String
  number : Nat
  sectionName : String
  price_nok : Nat
deriving Repr, DecidableEq

/-- A row of the `shows` table (the fields the handlers read). -/
structure ShowRow where
  id : String
  title : Option String
  ensembleTitle : Option String
  show_datetime : String
  available_seats : Int
deriving Repr, DecidableEq

/-- A row of the `discount_codes` table. -/
structure DiscountCode where
  id : String
  code : String
  current_uses : Nat
deriving Repr, DecidableEq

/-- The ticket payload embedded in the QR code.
Modelled from the spec: `createQRCodeData` lives in `lib/utils/booking`,
which is not among the given source files; the spec's wire format is
booking_id, booking_reference, show_id, show_title, show_datetime,
customer_name and seat summaries (section, row, number).  Serialization
(`JSON.stringify`) is abstracted away: the structured record itself is
stored. -/
structure QRData where
  booking_id : String
  booking_reference : String
  show_id : String
  show_title : String
  show_datetime : String
  customer_name : String
  seats : List (String × String × Nat)
deriving Repr, DecidableEq

/-- A row of the `bookings` table. -/
structure Booking where
  id : String
  user_id : String
  show_id : String
  seat_ids : List String
  total_amount_nok : Int
  booking_reference : String
  qr_code_data : QRData
  customer_name : String
  customer_email : String
  customer_phone : Option String
  special_requests : Option String
  status : String
  confirmed_at : String
  ticket_sent : Bool
  discount_code_used : Option String
deriving Repr, DecidableEq

/-- The persistent store. -/
structure DB where
  seats : List Seat
  shows : List ShowRow
  bookings : List Booking
  discounts : List DiscountCode
deriving Repr, DecidableEq

/-- Response of the reserve endpoint (the JSON fields the handler can
emit, plus the HTTP status). -/
structure ReserveResponse where
  status : Nat
  error : Option String
  unavailableSeatIds : Option (List String)
  reservedUntil : Option Nat
  seatIds : Option (List String)
deriving Repr, DecidableEq

/-- Error response helper for the reserve endpoint. -/
def errResp (code : Nat) (msg : String) : ReserveResponse :=
  ⟨code, some msg, none, none, none⟩

/-- The reservation hold window: 10 minutes in milliseconds
(`10 * 60 * 1000`). -/
def HOLD_MS : Nat := 10 * 60 * 1000

/-- `((s.status as string) || "available").toString().toLowerCase()`:
null/undefined or empty status is treated as "available"; otherwise the
status is lowercased. -/
def normStatus : Option String → String
  | none => "available"
  | some st => if st = "" then "available" else strLower st

/-- `const until = s.reserved_until ? new Date(...).getTime() : 0` — a null
timestamp becomes 0. -/
def untilMs (s : Seat) : Nat :=
  match s.reserved_until with
  | none => 0
  | some u => u

/-- The filter body of the availability check: `true` iff the seat is
unavailable.  available → false; reserved with a live hold
(`until && until > now`) → true; reserved otherwise (expired or absent
hold) → false; anything else (sold, blocked, unknown) → true. -/
def seatUnavailable (now : Nat) (s : Seat) : Bool :=
  let st := normStatus s.status
  if st = "available" then false
  else if st = "reserved" then
    if untilMs s != 0 && decide (now < untilMs s) then true else false
  else true

/-- The side branch of the same filter: the seat is reserved but its hold
has expired or is absent, so its id is pushed onto `expiredReservedIds`. -/
def seatExpiredReserved (now : Nat) (s : Seat) : Bool :=
  normStatus s.status = "reserved" && !(untilMs s != 0 && decide (now < untilMs s))

/-- The initial read of the reserve handler:
`.select(...) .in("id", seatIds) .eq("show_id", showId)`. -/
def fetchReserve (seats : List Seat) (showId : String) (seatIds : List String) : List Seat :=
  seats.filter (fun s => seatIds.contains s.id && s.show_id == showId)

/-- The best-effort cleanup write:
`.update({status: "available", reserved_until: null}).in("id", expiredReservedIds)`. -/
def cleanupExpired (seats : List Seat) (expiredIds : List String) : List Seat :=
  seats.map (fun s =>
    if expiredIds.contains s.id then
      { s with status := some "available", reserved_until := none }
    else s)

/-- The predicate of the conditional reservation update:
`.in("id", seatIds) .eq("show_id", showId) .eq("status", "available")`. -/
def reserveMatch (showId : String) (seatIds : List String) (s : Seat) : Bool :=
  seatIds.contains s.id && s.show_id == showId && s.status == some "available"

/-- The conditional reservation update applied to the store:
matching rows get `status = "reserved"`, `reserved_until = until`. -/
def applyReserve (seats : List Seat) (showId : String) (seatIds : List String)
    (holdUntil : Nat) : List Seat :=
  seats.map (fun s =>
    if reserveMatch showId seatIds s then
      { s with status := some "reserved", reserved_until := some holdUntil }
    else s)

/-- The ids returned by `.update(...).select("id")`: the rows the
conditional update matched. -/
def reserveUpdatedIds (seats : List Seat) (showId : String) (seatIds : List String) :
    List String :=
  (seats.filter (reserveMatch showId seatIds)).map Seat.id

/-- The race rollback write:
`.update({status: "available", reserved_until: null}).in("id", reservedIds)`. -/
def rollbackReserve (seats : List Seat) (ids : List String) : List Seat :=
  seats.map (fun s =>
    if ids.contains s.id then
      { s with status := some "available", reserved_until := none }
    else s)

/-- The ids collected into `expiredReservedIds` during the availability
check: the requested seats whose reservation has expired. -/
def expiredIdsOf (seats0 : List Seat) (showId : String) (seatIds : List String)
    (now : Nat) : List String :=
  ((fetchReserve seats0 showId seatIds).filter (seatExpiredReserved now)).map Seat.id

/-- The store after the best-effort cleanup step: the cleanup write runs
only when there are expired reservations, and only changes the store when
it succeeds (`cleanupOk`); a failed write is caught and ignored. -/
def reserveCleanupState (seats0 : List Seat) (showId : String) (seatIds : List String)
    (now : Nat) (cleanupOk : Bool) : List Seat :=
  if cleanupOk && !(expiredIdsOf seats0 showId seatIds now).isEmpty then
    cleanupExpired seats0 (expiredIdsOf seats0 showId seatIds now)
  else seats0

/-- A seat that is unavailable in the sense of the spec's taxonomy: sold,
blocked, or reserved with an unexpired hold. -/
def seatHardUnavailable (now : Nat) (s : Seat) : Bool :=
  s.status == some "sold" || s.status == some "blocked" ||
    (s.status == some "reserved" && decide (now < untilMs s))

/-- `` `Rad ${s.row}, Sete ${s.number}` `` -/
def seatLabel (s : Seat) : String :=
  "Rad " ++ s.row ++ ", Sete " ++ toString s.number

/-- The 409 message of the availability conflict. -/
def conflictMsg (unavailable : List Seat) : String :=
  "Følgende seter er ikke tilgjengelige: " ++
    String.intercalate ", " (unavailable.map seatLabel)

/-- The 409 message of the race branch:
`` `${failedCount} av setene ble nettopp tatt av noen andre` ``. -/
def raceMsg (failedCount : Nat) : String :=
  toString failedCount ++ " av setene ble nettopp tatt av noen andre"

/-- The tail of the reserve handler after the availability check passed:
the conditional update, the partial-update (race) branch with its rollback,
and the success response.  `seats1` is the store after the cleanup write;
`interfere` is whatever concurrent writers do to the store between the
check phase and the update. -/
def reserveContinue (seats1 : List Seat) (showId : String) (seatIds : List String)
    (now : Nat) (interfere : List Seat → List Seat) :
    ReserveResponse × List Seat :=
  let seats2 := interfere seats1
  let reservedUntil := now + HOLD_MS
  let updatedIds := reserveUpdatedIds seats2 showId seatIds
  let seats3 := applyReserve seats2 showId seatIds reservedUntil
  if updatedIds.length != seatIds.length then
    let seats4 := if 0 < updatedIds.length then rollbackReserve seats3 updatedIds else seats3
    let failedCount := seatIds.length - updatedIds.length
    (errResp 409 (raceMsg failedCount), seats4)
  else
    (⟨200, none, none, some reservedUntil, some updatedIds⟩, seats3)

/-- The `POST` handler of `src/app/api/seats/reserve/route.ts`.
`cleanupOk` models whether the try/caught best-effort cleanup write
succeeded; `interfere` models concurrent writers acting between the
availability check and the conditional update. -/
def reservePOST (seats0 : List Seat) (showId : String) (seatIds : List String)
    (now : Nat) (cleanupOk : Bool) (interfere : List Seat → List Seat) :
    ReserveResponse × List Seat :=
  if seatIds.isEmpty || showId == "" then
    (errResp 400 "Manglende seatIds eller showId", seats0)
  else
    let currentSeats := fetchReserve seats0 showId seatIds
    if currentSeats.length != seatIds.length then
      (errResp 400 "Noen av setene finnes ikke", seats0)
    else
      let unavailable := currentSeats.filter (seatUnavailable now)
      let seats1 := reserveCleanupState seats0 showId seatIds now cleanupOk
      if !unavailable.isEmpty then
        (⟨409, some (conflictMsg unavailable), some (unavailable.map Seat.id), none, none⟩,
         seats1)
      else
        reserveContinue seats1 showId seatIds now interfere

/-- Response of the booking-confirmation endpoint. -/
structure ConfirmResponse where
  status : Nat
  error : Option String
  success : Bool
  bookingId : Option String
  bookingReference : Option String
  emailSent : Option Bool
  emailError : Option String
deriving Repr, DecidableEq

/-- Error response helper for the confirmation endpoint. -/
def confirmErr (code : Nat) (msg : String) : ConfirmResponse :=
  ⟨code, some msg, false, none, none, none, none⟩

/-- `x || null`: an empty string is stored as null. -/
def orNull : Option String → Option String
  | none => none
  | some s => if s = "" then none else some s

/-- The seats read of the confirmation handler:
`.from("seats").select("*").in("id", seatIds)` — note the absence of a
`show_id` filter, unlike the reserve handler's read. -/
def fetchConfirm (seats : List Seat) (seatIds : List String) : List Seat :=
  seats.filter (fun s => seatIds.contains s.id)

/-- The filter of the confirmation availability check:
`s.status !== "reserved" && s.status !== "available"` on the raw status. -/
def confirmBad (s : Seat) : Bool :=
  !(s.status == some "reserved") && !(s.status == some "available")

/-- The rejection message built from the sold and blocked counts; a
positive blocked count overwrites the sold message, which overwrites the
generic one. -/
def confirmUnavailableMsg (unavailable : List Seat) : String :=
  let soldCount := (unavailable.filter (fun s => s.status == some "sold")).length
  let blockedCount := (unavailable.filter (fun s => s.status == some "blocked")).length
  let msg0 := "Noen av setene er ikke lenger tilgjengelige"
  let msg1 := if 0 < soldCount then toString soldCount ++ " av setene er allerede solgt" else msg0
  if 0 < blockedCount then toString blockedCount ++ " av setene er blokkert" else msg1

/-- `show.title || show.ensemble?.title || "Forestilling"` (JS `||`: null
and the empty string are falsy). -/
def showTitleOf (sh : ShowRow) : String :=
  match sh.title with
  | some t => if t = "" then (match sh.ensembleTitle with
      | some e => if e = "" then "Forestilling" else e
      | none => "Forestilling") else t
  | none => match sh.ensembleTitle with
      | some e => if e = "" then "Forestilling" else e
      | none => "Forestilling"

/-- The commit tail of the confirmation handler, from the discount-code
increment through the booking insert, the qr patch, the seat sale, the
counter decrement, the email dispatch and the `ticket_sent` update, to the
success response.  `newId` is the store-generated booking id, `bookingRef`
the generated reference, `emailOk`/`emailErr` the email collaborator's
outcome (a thrown error is caught and becomes `emailOk = false`). -/
def confirmCommit (db : DB) (showRow : ShowRow) (seats : List Seat)
    (showId : String) (seatIds : List String)
    (customerName customerEmail : String)
    (customerPhone specialRequests : Option String)
    (totalAmount : Int) (discountCode : Option String)
    (uid : String) (newId : String) (bookingRef : String) (nowIso : String)
    (emailOk : Bool) (emailErr : Option String) : ConfirmResponse × DB :=
  let db1 : DB :=
    match discountCode with
    | none => db
    | some c =>
      match db.discounts.find? (fun (d : DiscountCode) => d.code == c) with
      | none => db
      | some dc =>
        { db with discounts := db.discounts.map (fun (d : DiscountCode) =>
            if d.id == dc.id then { d with current_uses := d.current_uses + 1 } else d) }
  let qr0 : QRData :=
    ⟨"", bookingRef, showId, showTitleOf showRow, showRow.show_datetime, customerName,
     seats.map (fun s => (s.sectionName, s.row, s.number))⟩
  let booking0 : Booking :=
    ⟨newId, uid, showId, seatIds, totalAmount, bookingRef, qr0, customerName,
     customerEmail, orNull customerPhone, orNull specialRequests, "confirmed",
     nowIso, false, none⟩
  let db2 := { db1 with bookings := db1.bookings ++ [booking0] }
  let db3 : DB :=
    match discountCode with
    | none => db2
    | some c =>
      { db2 with bookings := db2.bookings.map (fun (b : Booking) =>
          if b.id == newId then { b with discount_code_used := some c } else b) }
  let db4 := { db3 with bookings := db3.bookings.map (fun (b : Booking) =>
      if b.id == newId then { b with qr_code_data := { qr0 with booking_id := newId } } else b) }
  let db5 := { db4 with seats := db4.seats.map (fun (s : Seat) =>
      if seatIds.contains s.id then { s with status := some "sold", reserved_until := none } else s) }
  let db6 := { db5 with shows := db5.shows.map (fun (sh : ShowRow) =>
      if sh.id == showId then { sh with available_seats := sh.available_seats - seatIds.length } else sh) }
  let db7 := { db6 with bookings := db6.bookings.map (fun (b : Booking) =>
      if b.id == newId then { b with ticket_sent := emailOk } else b) }
  (⟨200, none, true, some newId, some bookingRef, some emailOk, emailErr⟩, db7)

/-- The booking-confirmation `POST` handler: field validation, the
authenticated-user requirement, the show and seat reads, the exact-count
and availability checks, then `confirmCommit`.  `user` is the session
user's id (none when unauthenticated). -/
def confirmPOST (db : DB) (showId : String) (seatIds : List String)
    (customerName customerEmail : String)
    (customerPhone specialRequests : Option String)
    (totalAmount : Int) (discountCode : Option String)
    (user : Option String) (newId : String) (bookingRef : String) (nowIso : String)
    (emailOk : Bool) (emailErr : Option String) : ConfirmResponse × DB :=
  if showId == "" || seatIds.isEmpty || customerName == "" || customerEmail == ""
      || decide (totalAmount ≤ 0) then
    (confirmErr 400 "Manglende påkrevde felt", db)
  else
    match user with
    | none => (confirmErr 401 "Du må være logget inn for å bestille billetter", db)
    | some uid =>
      match db.shows.find? (fun (sh : ShowRow) => sh.id == showId) with
      | none => (confirmErr 404 "Forestilling ikke funnet", db)
      | some showRow =>
        let seats := fetchConfirm db.seats seatIds
        if seats.length != seatIds.length then
          (confirmErr 400 "Noen av setene finnes ikke", db)
        else
          let unavailable := seats.filter confirmBad
          if !unavailable.isEmpty then
            (confirmErr 400 (confirmUnavailableMsg unavailable), db)
          else
            confirmCommit db showRow seats showId seatIds customerName customerEmail
              customerPhone specialRequests totalAmount discountCode uid newId
              bookingRef nowIso emailOk emailErr

/-! ## Helper lemmas -/

/-- Filtering after a map is mapping after filtering the composed predicate. -/
lemma filter_map_eq_map_filter (f : Seat → Seat) (p : Seat → Bool) :
    ∀ l : List Seat, (l.map f).filter p = (l.filter (fun s => p (f s))).map f := by
  intro l
  induction l with
  | nil => rfl
  | cons a t ih =>
    by_cases h : p (f a) = true
    · simp [List.filter_cons, h, ih]
    · simp only [Bool.not_eq_true] at h
      simp [List.filter_cons, h, ih]

/-- A filter by a stronger predicate is at most as long. -/
lemma length_filter_le_of_imp (p q : Seat → Bool) (l : List Seat)
    (h : ∀ s ∈ l, q s = true → p s = true) :
    (l.filter q).length ≤ (l.filter p).length := by
  induction l with
  | nil => exact Nat.le_refl 0
  | cons a t ih =>
    have ht : ∀ s ∈ t, q s = true → p s = true := fun s hs => h s (List.mem_cons_of_mem a hs)
    by_cases hq : q a = true
    · have hp : p a = true := h a (List.mem_cons_self a t) hq
      simp [List.filter_cons, hq, hp]
      exact ih ht
    · simp only [Bool.not_eq_true] at hq
      by_cases hp : p a = true
      · simp [List.filter_cons, hq, hp]
        exact Nat.le_succ_of_le (ih ht)
      · simp only [Bool.not_eq_true] at hp
        simp [List.filter_cons, hq, hp]
        exact ih ht

/-- A filter by a stronger predicate that misses a member satisfying the
weaker one is strictly shorter. -/
lemma length_filter_lt_of_witness (p q : Seat → Bool) (l : List Seat)
    (h : ∀ s ∈ l, q s = true → p s = true)
    (x : Seat) (hx : x ∈ l) (hpx : p x = true) (hqx : q x = false) :
    (l.filter q).length < (l.filter p).length := by
  induction l with
  | nil => cases hx
  | cons a t ih =>
    have ht : ∀ s ∈ t, q s = true → p s = true := fun s hs => h s (List.mem_cons_of_mem a hs)
    rcases List.mem_cons.1 hx with rfl | hxt
    · simp [List.filter_cons, hqx, hpx]
      exact Nat.lt_succ_of_le (length_filter_le_of_imp p q t ht)
    · by_cases hq : q a = true
      · have hp : p a = true := h a (List.mem_cons_self a t) hq
        simp [List.filter_cons, hq, hp]
        exact ih ht hxt
      · simp only [Bool.not_eq_true] at hq
        by_cases hp : p a = true
        · simp [List.filter_cons, hq, hp]
          exact Nat.lt_succ_of_lt (ih ht hxt)
        · simp only [Bool.not_eq_true] at hp
          simp [List.filter_cons, hq, hp]
          exact ih ht hxt

/-- A map that fixes every member fixes the list. -/
lemma map_eq_self_of_mem {α : Type} (f : α → α) (l : List α)
    (h : ∀ x ∈ l, f x = x) : l.map f = l := by
  induction l with
  | nil => rfl
  | cons a t ih =>
    simp only [List.map_cons, h a (List.mem_cons_self a t),
      ih (fun x hx => h x (List.mem_cons_of_mem a hx))]

/-- Rows of the cleanup result are either the original row or that row
reset to available with its hold cleared. -/
lemma cleanupExpired_mem (seats : List Seat) (ids : List String) :
    ∀ t ∈ cleanupExpired seats ids, t ∈ seats ∨
      ∃ s ∈ seats, t = { s with status := some "available", reserved_until := none } := by
  intro t ht
  rcases List.mem_map.1 ht with ⟨s, hs, rfl⟩
  by_cases h : ids.contains s.id = true
  · rw [if_pos h]
    exact Or.inr ⟨s, hs, rfl⟩
  · rw [if_neg h]
    exact Or.inl hs

/-- Rows of the post-cleanup store that are still `reserved` already stood
in the original store unchanged. -/
lemma reserveCleanupState_reserved (seats0 : List Seat) (showId : String)
    (seatIds : List String) (now : Nat) (cleanupOk : Bool) :
    ∀ t ∈ reserveCleanupState seats0 showId seatIds now cleanupOk,
      t.status = some "reserved" → t ∈ seats0 := by
  intro t ht hres
  unfold reserveCleanupState at ht
  by_cases h : (cleanupOk && !(expiredIdsOf seats0 showId seatIds now).isEmpty) = true
  · rw [if_pos h] at ht
    rcases cleanupExpired_mem _ _ t ht with h1 | ⟨s, _, rfl⟩
    · exact h1
    · simp at hres
  · rw [if_neg h] at ht
    exact ht

/-- The spec-level unavailability (sold, blocked, live hold) implies the
handler's classification. -/
lemma hard_implies_unavailable (now : Nat) (s : Seat)
    (h : seatHardUnavailable now s = true) : seatUnavailable now s = true := by
  unfold seatHardUnavailable at h
  simp only [Bool.or_eq_true, Bool.and_eq_true, beq_iff_eq, decide_eq_true_eq] at h
  unfold seatUnavailable
  rcases h with (h | h) | ⟨h, hlt⟩
  · rw [h]
    have hn : normStatus (some "sold") = "sold" := by decide
    rw [hn, if_neg (by decide), if_neg (by decide)]
  · rw [h]
    have hn : normStatus (some "blocked") = "blocked" := by decide
    rw [hn, if_neg (by decide), if_neg (by decide)]
  · rw [h]
    have hn : normStatus (some "reserved") = "reserved" := by decide
    rw [hn, if_neg (by decide), if_pos (by decide : ("reserved" : String) = "reserved")]
    have h0 : untilMs s ≠ 0 := Nat.pos_iff_ne_zero.mp (Nat.lt_of_le_of_lt (Nat.zero_le now) hlt)
    simp [h0, hlt]

/-- Unfolding of the reserve handler on the availability-conflict branch. -/
lemma reservePOST_conflict_eq (seats0 : List Seat) (showId : String)
    (seatIds : List String) (now : Nat) (cleanupOk : Bool)
    (interfere : List Seat → List Seat)
    (h0 : seatIds.isEmpty = false) (h1 : (showId == "") = false)
    (h2 : (fetchReserve seats0 showId seatIds).length = seatIds.length)
    (h3 : ((fetchReserve seats0 showId seatIds).filter (seatUnavailable now)).isEmpty = false) :
    reservePOST seats0 showId seatIds now cleanupOk interfere =
      (⟨409,
        some (conflictMsg ((fetchReserve seats0 showId seatIds).filter (seatUnavailable now))),
        some (((fetchReserve seats0 showId seatIds).filter (seatUnavailable now)).map Seat.id),
        none, none⟩,
       reserveCleanupState seats0 showId seatIds now cleanupOk) := by
  unfold reservePOST
  simp only [h0, h1, Bool.or_self, Bool.false_eq_true, if_false, h2, bne_self_eq_false,
    h3, Bool.not_false, if_true]

/-- Unfolding of the reserve handler when every requested seat passes the
availability check: the request proceeds to the conditional update. -/
lemma reservePOST_continue_eq (seats0 : List Seat) (showId : String)
    (seatIds : List String) (now : Nat) (cleanupOk : Bool)
    (interfere : List Seat → List Seat)
    (h0 : seatIds.isEmpty = false) (h1 : (showId == "") = false)
    (h2 : (fetchReserve seats0 showId seatIds).length = seatIds.length)
    (h3 : ((fetchReserve seats0 showId seatIds).filter (seatUnavailable now)).isEmpty = true) :
    reservePOST seats0 showId seatIds now cleanupOk interfere =
      reserveContinue (reserveCleanupState seats0 showId seatIds now cleanupOk)
        showId seatIds now interfere := by
  unfold reservePOST
  simp only [h0, h1, Bool.or_self, Bool.false_eq_true, if_false, h2, bne_self_eq_false,
    h3, Bool.not_true, if_false]

/-! ## Concrete fixtures used by the witnesses -/

/-- An available seat of show `sh1`. -/
def wSeatA : Seat := ⟨"sA", "sh1", some "available", none, "A", 1, "Hovedsal", 100⟩

/-- A second available seat of show `sh1`. -/
def wSeatB : Seat := ⟨"sB", "sh1", some "available", none, "A", 2, "Hovedsal", 100⟩

/-- A seat of show `sh1` reserved with a live hold (expires at 999999). -/
def wSeatHeld : Seat := ⟨"sH", "sh1", some "reserved", some 999999, "A", 3, "Hovedsal", 100⟩

/-- A sold seat of show `sh1`. -/
def wSeatSold : Seat := ⟨"sS", "sh1", some "sold", none, "A", 4, "Hovedsal", 100⟩

/-- A seat of show `sh1` whose reservation hold has expired (at 50). -/
def wSeatExp : Seat := ⟨"sE", "sh1", some "reserved", some 50, "A", 5, "Hovedsal", 100⟩

/-- A seat of show `sh1` with a null status. -/
def wSeatNull : Seat := ⟨"sN", "sh1", none, none, "A", 6, "Hovedsal", 100⟩

/-- A blocked seat of show `sh1`. -/
def wSeatBlocked : Seat := ⟨"sK", "sh1", some "blocked", none, "A", 7, "Hovedsal", 100⟩

/-- An available seat belonging to the other show `sh2`. -/
def wSeatOther : Seat := ⟨"sX", "sh2", some "available", none, "B", 1, "Hovedsal", 100⟩

/-- The show used by the witnesses. -/
def wShow : ShowRow := ⟨"sh1", some "Stykket", none, "2026-02-01T19:00", 50⟩

/-! ## Claims -/

/-- Claim C2: for every reserve request in which at least one requested
seat is unavailable (sold, blocked, or reserved with an unexpired hold),
the handler returns a 409 Conflict whose `unavailableSeatIds` lists every
unavailable seat id in the request, and reserves none of the requested
seats: every row of the resulting store that carries status `reserved`
already stood unchanged in the original store. -/
theorem c2_conflict_lists_all_and_reserves_none
    (seats0 : List Seat) (showId : String) (seatIds : List String)
    (now : Nat) (cleanupOk : Bool) (interfere : List Seat → List Seat)
    (h0 : seatIds.isEmpty = false) (h1 : (showId == "") = false)
    (h2 : (fetchReserve seats0 showId seatIds).length = seatIds.length)
    (hbad : ∃ s ∈ fetchReserve seats0 showId seatIds, seatHardUnavailable now s = true) :
    (reservePOST seats0 showId seatIds now cleanupOk interfere).1.status = 409 ∧
    (reservePOST seats0 showId seatIds now cleanupOk interfere).1.unavailableSeatIds =
      some (((fetchReserve seats0 showId seatIds).filter (seatUnavailable now)).map Seat.id) ∧
    (∀ s ∈ fetchReserve seats0 showId seatIds, seatHardUnavailable now s = true →
      s.id ∈ ((fetchReserve seats0 showId seatIds).filter (seatUnavailable now)).map Seat.id) ∧
    (reservePOST seats0 showId seatIds now cleanupOk interfere).1.reservedUntil = none ∧
    (∀ t ∈ (reservePOST seats0 showId seatIds now cleanupOk interfere).2,
      t.status = some "reserved" → t ∈ seats0) := by
  obtain ⟨x, hxmem, hxbad⟩ := hbad
  have hxu : seatUnavailable now x = true := hard_implies_unavailable now x hxbad
  have hxf : x ∈ (fetchReserve seats0 showId seatIds).filter (seatUnavailable now) :=
    List.mem_filter.2 ⟨hxmem, hxu⟩
  have h3 : ((fetchReserve seats0 showId seatIds).filter (seatUnavailable now)).isEmpty = false := by
    cases hfl : (fetchReserve seats0 showId seatIds).filter (seatUnavailable now) with
    | nil => rw [hfl] at hxf; cases hxf
    | cons a l => rfl
  rw [reservePOST_conflict_eq seats0 showId seatIds now cleanupOk interfere h0 h1 h2 h3]
  refine ⟨rfl, rfl, ?_, rfl, ?_⟩
  · intro s hs hsbad
    exact List.mem_map_of_mem Seat.id
      (List.mem_filter.2 ⟨hs, hard_implies_unavailable now s hsbad⟩)
  · exact reserveCleanupState_reserved seats0 showId seatIds now cleanupOk

/-- The hypotheses of `c2_conflict_lists_all_and_reserves_none` hold at a
concrete request (one available, one held, one sold seat), and its
conclusion follows there. -/
theorem c2_witness :
    (∃ s ∈ fetchReserve [wSeatA, wSeatHeld, wSeatSold] "sh1" ["sA", "sH", "sS"],
        seatHardUnavailable 1000 s = true) ∧
    (reservePOST [wSeatA, wSeatHeld, wSeatSold] "sh1" ["sA", "sH", "sS"] 1000 true id).1.status = 409 ∧
    (reservePOST [wSeatA, wSeatHeld, wSeatSold] "sh1" ["sA", "sH", "sS"] 1000 true id).1.unavailableSeatIds =
      some ["sH", "sS"] := by
  have hbad : ∃ s ∈ fetchReserve [wSeatA, wSeatHeld, wSeatSold] "sh1" ["sA", "sH", "sS"],
      seatHardUnavailable 1000 s = true := ⟨wSeatHeld, by decide, by decide⟩
  have hmain := c2_conflict_lists_all_and_reserves_none
    [wSeatA, wSeatHeld, wSeatSold] "sh1" ["sA", "sH", "sS"] 1000 true id
    (by decide) (by decide) (by decide) hbad
  exact ⟨hbad, hmain.1, by rw [hmain.2.1]; decide⟩

/-- Claim C4: when every requested seat is eligible, the handler issues the
single conditional update `id in seatIds AND show_id = showId AND status =
'available'`, setting matching rows to `reserved` with `reserved_until =
now + 10 minutes` and leaving every other row untouched, and returns that
`reservedUntil` timestamp on full success. -/
theorem c4_conditional_update_and_success
    (seats0 : List Seat) (showId : String) (seatIds : List String)
    (now : Nat) (cleanupOk : Bool) (interfere : List Seat → List Seat)
    (seats2 : List Seat)
    (hseats2 : seats2 = interfere (reserveCleanupState seats0 showId seatIds now cleanupOk))
    (h0 : seatIds.isEmpty = false) (h1 : (showId == "") = false)
    (h2 : (fetchReserve seats0 showId seatIds).length = seatIds.length)
    (h3 : ((fetchReserve seats0 showId seatIds).filter (seatUnavailable now)).isEmpty = true)
    (hall : (reserveUpdatedIds seats2 showId seatIds).length = seatIds.length) :
    (reservePOST seats0 showId seatIds now cleanupOk interfere).1 =
      ⟨200, none, none, some (now + 10 * 60 * 1000),
        some (reserveUpdatedIds seats2 showId seatIds)⟩ ∧
    (reservePOST seats0 showId seatIds now cleanupOk interfere).2 =
      applyReserve seats2 showId seatIds (now + 10 * 60 * 1000) ∧
    (∀ i : Nat, ∀ s : Seat, seats2[i]? = some s →
      (reservePOST seats0 showId seatIds now cleanupOk interfere).2[i]? =
        some (if seatIds.contains s.id && s.show_id == showId && s.status == some "available" then
          { s with status := some "reserved", reserved_until := some (now + 10 * 60 * 1000) }
        else s)) := by
  rw [reservePOST_continue_eq seats0 showId seatIds now cleanupOk interfere h0 h1 h2 h3]
  unfold reserveContinue
  rw [← hseats2]
  simp only [hall, bne_self_eq_false, Bool.false_eq_true, if_false]
  refine ⟨rfl, rfl, ?_⟩
  intro i s hs
  unfold applyReserve
  rw [List.getElem?_map, hs]
  rfl

/-- The hypotheses of `c4_conditional_update_and_success` hold at a
concrete request over two available seats, and the handler reserves
exactly those and returns the hold expiry. -/
theorem c4_witness :
    (reservePOST [wSeatA, wSeatB] "sh1" ["sA", "sB"] 1000 true id).1 =
      ⟨200, none, none, some 601000, some ["sA", "sB"]⟩ ∧
    (reservePOST [wSeatA, wSeatB] "sh1" ["sA", "sB"] 1000 true id).2 =
      applyReserve [wSeatA, wSeatB] "sh1" ["sA", "sB"] 601000 := by
  have hmain := c4_conditional_update_and_success
    [wSeatA, wSeatB] "sh1" ["sA", "sB"] 1000 true id [wSeatA, wSeatB]
    (by decide) (by decide) (by decide) (by decide) (by decide) (by decide)
  exact ⟨hmain.1, hmain.2.1⟩

/-- Two rows of a store with pairwise-distinct ids that share an id are the
same row. -/
lemma eq_of_id_eq_of_nodup (l : List Seat) (hnod : (l.map Seat.id).Nodup)
    (a b : Seat) (ha : a ∈ l) (hb : b ∈ l) (hid : a.id = b.id) : a = b :=
  List.inj_on_of_nodup_map hnod ha hb hid

/-- A matched row's id appears among the updated ids. -/
lemma id_mem_updated_of_match (seats2 : List Seat) (showId : String)
    (seatIds : List String) (s : Seat) (hs : s ∈ seats2)
    (hm : reserveMatch showId seatIds s = true) :
    s.id ∈ reserveUpdatedIds seats2 showId seatIds :=
  List.mem_map_of_mem Seat.id (List.mem_filter.2 ⟨hs, hm⟩)

/-- In a store with pairwise-distinct ids, an unmatched row's id does not
appear among the updated ids. -/
lemma id_not_mem_updated_of_not_match (seats2 : List Seat) (showId : String)
    (seatIds : List String) (hnod : (seats2.map Seat.id).Nodup)
    (s : Seat) (hs : s ∈ seats2) (hm : reserveMatch showId seatIds s = false) :
    s.id ∉ reserveUpdatedIds seats2 showId seatIds := by
  intro hmem
  rcases List.mem_map.1 hmem with ⟨t, htf, hid⟩
  have htmem : t ∈ seats2 := List.mem_filter.1 htf |>.1
  have htm : reserveMatch showId seatIds t = true := List.mem_filter.1 htf |>.2
  have : t = s := eq_of_id_eq_of_nodup seats2 hnod t s htmem hs hid
  rw [this, hm] at htm
  exact Bool.false_ne_true htm

/-- Claim C6: when the conditional update changes fewer rows than
requested (a race), the handler rolls back exactly the partially reserved
subset — each matched row is set back to `available` with its hold
cleared, every other row is untouched — and returns a 409 Conflict whose
message reports the count of seats lost to the race (requested minus
updated) and which carries no seat ids. -/
theorem c6_race_rollback_and_count
    (seats0 : List Seat) (showId : String) (seatIds : List String)
    (now : Nat) (cleanupOk : Bool) (interfere : List Seat → List Seat)
    (seats2 : List Seat)
    (hseats2 : seats2 = interfere (reserveCleanupState seats0 showId seatIds now cleanupOk))
    (h0 : seatIds.isEmpty = false) (h1 : (showId == "") = false)
    (h2 : (fetchReserve seats0 showId seatIds).length = seatIds.length)
    (h3 : ((fetchReserve seats0 showId seatIds).filter (seatUnavailable now)).isEmpty = true)
    (hnod : (seats2.map Seat.id).Nodup)
    (hrace : (reserveUpdatedIds seats2 showId seatIds).length ≠ seatIds.length) :
    (reservePOST seats0 showId seatIds now cleanupOk interfere).1 =
      errResp 409 (raceMsg (seatIds.length - (reserveUpdatedIds seats2 showId seatIds).length)) ∧
    (reservePOST seats0 showId seatIds now cleanupOk interfere).1.unavailableSeatIds = none ∧
    (∀ i : Nat, ∀ s : Seat, seats2[i]? = some s →
      (reservePOST seats0 showId seatIds now cleanupOk interfere).2[i]? =
        some (if reserveMatch showId seatIds s then
          { s with status := some "available", reserved_until := none }
        else s)) := by
  rw [reservePOST_continue_eq seats0 showId seatIds now cleanupOk interfere h0 h1 h2 h3]
  unfold reserveContinue
  rw [← hseats2]
  have hb : ((reserveUpdatedIds seats2 showId seatIds).length != seatIds.length) = true := by
    simpa [bne_iff_ne] using hrace
  rw [if_pos hb]
  refine ⟨rfl, rfl, ?_⟩
  intro i s hs
  have hsmem : s ∈ seats2 := List.getElem?_mem hs
  by_cases hlen : 0 < (reserveUpdatedIds seats2 showId seatIds).length
  · rw [if_pos hlen]
    unfold rollbackReserve applyReserve
    rw [List.getElem?_map, List.getElem?_map, hs]
    simp only [Option.map_some']
    by_cases hm : reserveMatch showId seatIds s = true
    · rw [if_pos hm, hm, if_pos rfl]
      have hid : s.id ∈ reserveUpdatedIds seats2 showId seatIds :=
        id_mem_updated_of_match seats2 showId seatIds s hsmem hm
      have hcon : (reserveUpdatedIds seats2 showId seatIds).contains s.id = true := by
        simpa [List.elem_iff] using hid
      rw [if_pos hcon]
    · simp only [Bool.not_eq_true] at hm
      have hid : s.id ∉ reserveUpdatedIds seats2 showId seatIds :=
        id_not_mem_updated_of_not_match seats2 showId seatIds hnod s hsmem hm
      have hcon : ¬ ((reserveUpdatedIds seats2 showId seatIds).contains s.id = true) := by
        intro hc
        exact hid (by simpa [List.elem_iff] using hc)
      simp only [hm, Bool.false_eq_true, if_false]
      rw [if_neg hcon]
  · rw [if_neg hlen]
    have hupd : reserveUpdatedIds seats2 showId seatIds = [] := by
      cases hu : reserveUpdatedIds seats2 showId seatIds with
      | nil => rfl
      | cons a l => rw [hu] at hlen; exact absurd (Nat.succ_pos l.length) hlen
    unfold applyReserve
    rw [List.getElem?_map, hs]
    simp only [Option.map_some']
    by_cases hm : reserveMatch showId seatIds s = true
    · exfalso
      have hid : s.id ∈ reserveUpdatedIds seats2 showId seatIds :=
        id_mem_updated_of_match seats2 showId seatIds s hsmem hm
      rw [hupd] at hid
      cases hid
    · simp only [Bool.not_eq_true] at hm
      simp only [hm, Bool.false_eq_true, if_false]

/-- The hypotheses of `c6_race_rollback_and_count` hold at a concrete
request where a concurrent writer grabs one of the two seats between the
check and the update: the handler reports one seat lost and both rows end
unreserved. -/
theorem c6_witness :
    (reservePOST [wSeatA, wSeatB] "sh1" ["sA", "sB"] 1000 true
        (fun l => l.map (fun s =>
          if s.id == "sB" then { s with status := some "reserved", reserved_until := some 700000 }
          else s))).1 =
      errResp 409 (raceMsg 1) := by
  have hmain := c6_race_rollback_and_count [wSeatA, wSeatB] "sh1" ["sA", "sB"] 1000 true
    (fun l => l.map (fun s =>
      if s.id == "sB" then { s with status := some "reserved", reserved_until := some 700000 }
      else s))
    [wSeatA, { wSeatB with status := some "reserved", reserved_until := some 700000 }]
    (by decide) (by decide) (by decide) (by decide) (by decide) (by decide) (by decide)
  exact hmain.1

/-- A raw-available seat passes the availability check. -/
lemma avail_not_unavailable (now : Nat) (s : Seat) (h : s.status = some "available") :
    seatUnavailable now s = false := by
  unfold seatUnavailable
  rw [h]
  have hn : normStatus (some "available") = "available" := by decide
  rw [hn, if_pos rfl]

/-- An expired-reserved seat passes the availability check: it is treated
as available for the reservation decision. -/
lemma expired_not_unavailable (now : Nat) (s : Seat)
    (h : seatExpiredReserved now s = true) : seatUnavailable now s = false := by
  unfold seatExpiredReserved at h
  simp only [Bool.and_eq_true, decide_eq_true_eq, Bool.not_eq_eq_eq_not, Bool.not_true] at h
  obtain ⟨heq, hact⟩ := h
  unfold seatUnavailable
  simp only [heq, hact]
  simp

/-- The reserve handler's cleanup step with a succeeding write is exactly
the cleanup update over the expired ids (a no-op when there are none). -/
lemma cleanupState_true_eq (seats0 : List Seat) (showId : String)
    (seatIds : List String) (now : Nat) :
    reserveCleanupState seats0 showId seatIds now true =
      cleanupExpired seats0 (expiredIdsOf seats0 showId seatIds now) := by
  unfold reserveCleanupState
  by_cases h : (expiredIdsOf seats0 showId seatIds now).isEmpty = true
  · rw [if_neg (by simp [h])]
    have he : expiredIdsOf seats0 showId seatIds now = [] := by
      cases hu : expiredIdsOf seats0 showId seatIds now with
      | nil => rfl
      | cons a l => rw [hu] at h; exact absurd h (by simp)
    rw [he]
    unfold cleanupExpired
    exact (map_eq_self_of_mem _ seats0 (fun x _ => by simp [List.contains_eq_any_beq])).symm
  · simp only [Bool.not_eq_true] at h
    rw [if_pos (by simp [h])]

/-- A row of the store whose id was collected among the expired ids is
itself a fetched, expired row (ids being pairwise distinct). -/
lemma mem_fetch_of_id_mem_expired (seats0 : List Seat) (showId : String)
    (seatIds : List String) (now : Nat) (hnod : (seats0.map Seat.id).Nodup)
    (s : Seat) (hs : s ∈ seats0)
    (hid : s.id ∈ expiredIdsOf seats0 showId seatIds now) :
    s ∈ fetchReserve seats0 showId seatIds ∧ seatExpiredReserved now s = true := by
  rcases List.mem_map.1 hid with ⟨t, htf, hteq⟩
  have htfetch : t ∈ fetchReserve seats0 showId seatIds := (List.mem_filter.1 htf).1
  have htexp : seatExpiredReserved now t = true := (List.mem_filter.1 htf).2
  have htmem : t ∈ seats0 := (List.mem_filter.1 htfetch).1
  have : t = s := eq_of_id_eq_of_nodup seats0 hnod t s htmem hs hteq
  rw [← this]
  exact ⟨htfetch, htexp⟩

/-- After a successful cleanup, the conditional-update predicate agrees
with the fetch predicate on every row, provided each fetched seat was
raw-available or expired-reserved. -/
lemma reserveMatch_after_cleanup (seats0 : List Seat) (showId : String)
    (seatIds : List String) (now : Nat) (hnod : (seats0.map Seat.id).Nodup)
    (hall : ∀ s ∈ fetchReserve seats0 showId seatIds,
      s.status = some "available" ∨ seatExpiredReserved now s = true) :
    ∀ s ∈ seats0,
      reserveMatch showId seatIds
        (if (expiredIdsOf seats0 showId seatIds now).contains s.id then
          { s with status := some "available", reserved_until := none } else s) =
      (seatIds.contains s.id && s.show_id == showId) := by
  intro s hs
  by_cases hid : (expiredIdsOf seats0 showId seatIds now).contains s.id = true
  · rw [if_pos hid]
    have hmem : s.id ∈ expiredIdsOf seats0 showId seatIds now := by
      simpa [List.elem_iff] using hid
    obtain ⟨hf, _⟩ := mem_fetch_of_id_mem_expired seats0 showId seatIds now hnod s hs hmem
    have hfp : (seatIds.contains s.id && s.show_id == showId) = true :=
      (List.mem_filter.1 hf).2
    simp [reserveMatch, hfp]
  · rw [if_neg hid]
    by_cases hfp : (seatIds.contains s.id && s.show_id == showId) = true
    · have hf : s ∈ fetchReserve seats0 showId seatIds := List.mem_filter.2 ⟨hs, hfp⟩
      rcases hall s hf with hav | hexp
      · simp [reserveMatch, hfp, hav]
      · exfalso
        apply hid
        have : s.id ∈ expiredIdsOf seats0 showId seatIds now :=
          List.mem_map_of_mem Seat.id (List.mem_filter.2 ⟨hf, hexp⟩)
        simpa [List.elem_iff] using this
    · simp only [Bool.not_eq_true] at hfp
      unfold reserveMatch
      cases hcb : seatIds.contains s.id with
      | false => simp [hcb]
      | true =>
        cases hsb : s.show_id == showId with
        | false => simp [hcb, hsb]
        | true => rw [hcb, hsb] at hfp; simp at hfp

/-- Under the same conditions the conditional update matches exactly as
many rows as were requested. -/
lemma updatedIds_full (seats0 : List Seat) (showId : String)
    (seatIds : List String) (now : Nat) (hnod : (seats0.map Seat.id).Nodup)
    (hall : ∀ s ∈ fetchReserve seats0 showId seatIds,
      s.status = some "available" ∨ seatExpiredReserved now s = true)
    (h2 : (fetchReserve seats0 showId seatIds).length = seatIds.length) :
    (reserveUpdatedIds (reserveCleanupState seats0 showId seatIds now true)
      showId seatIds).length = seatIds.length := by
  rw [cleanupState_true_eq]
  unfold reserveUpdatedIds cleanupExpired
  rw [List.length_map, filter_map_eq_map_filter, List.length_map]
  have hcg : seats0.filter (fun s => reserveMatch showId seatIds
        (if (expiredIdsOf seats0 showId seatIds now).contains s.id then
          { s with status := some "available", reserved_until := none } else s)) =
      seats0.filter (fun s => seatIds.contains s.id && s.show_id == showId) :=
    List.filter_congr (reserveMatch_after_cleanup seats0 showId seatIds now hnod hall)
  rw [hcg]
  exact h2

/-- Claim C5: in the reserve handler, every requested seat whose
reservation has expired (hold in the past or absent) is classified as
available for the decision and scheduled for the best-effort cleanup write
(reset to available, hold cleared); a failing cleanup write neither blocks
nor fails the request, which still proceeds to the reservation attempt;
and when every requested seat is available or expired-reserved, a fresh
caller (with the cleanup write succeeding) reserves them all — the
previously expired holds included — without manual intervention. -/
theorem c5_lazy_expiry_semantics
    (seats0 : List Seat) (showId : String) (seatIds : List String)
    (now : Nat) (interfere : List Seat → List Seat)
    (h0 : seatIds.isEmpty = false) (h1 : (showId == "") = false)
    (h2 : (fetchReserve seats0 showId seatIds).length = seatIds.length)
    (hnod : (seats0.map Seat.id).Nodup) :
    (∀ s ∈ fetchReserve seats0 showId seatIds, seatExpiredReserved now s = true →
      seatUnavailable now s = false ∧ s.id ∈ expiredIdsOf seats0 showId seatIds now) ∧
    (∀ i : Nat, ∀ s : Seat, seats0[i]? = some s →
      (reserveCleanupState seats0 showId seatIds now true)[i]? =
        some (if (expiredIdsOf seats0 showId seatIds now).contains s.id then
          { s with status := some "available", reserved_until := none } else s)) ∧
    (reserveCleanupState seats0 showId seatIds now false = seats0) ∧
    (((fetchReserve seats0 showId seatIds).filter (seatUnavailable now)).isEmpty = true →
      reservePOST seats0 showId seatIds now false interfere =
        reserveContinue seats0 showId seatIds now interfere) ∧
    ((∀ s ∈ fetchReserve seats0 showId seatIds,
        s.status = some "available" ∨ seatExpiredReserved now s = true) →
      (reservePOST seats0 showId seatIds now true id).1.status = 200 ∧
      (reservePOST seats0 showId seatIds now true id).1.reservedUntil =
        some (now + 10 * 60 * 1000) ∧
      (∀ t ∈ (reservePOST seats0 showId seatIds now true id).2,
        seatIds.contains t.id = true → t.show_id = showId →
          t.status = some "reserved" ∧ t.reserved_until = some (now + 10 * 60 * 1000))) := by
  have hc1 : reserveCleanupState seats0 showId seatIds now false = seats0 := by
    simp [reserveCleanupState]
  refine ⟨?_, ?_, hc1, ?_, ?_⟩
  · intro s hsf hexp
    exact ⟨expired_not_unavailable now s hexp,
      List.mem_map_of_mem Seat.id (List.mem_filter.2 ⟨hsf, hexp⟩)⟩
  · intro i s hs
    rw [cleanupState_true_eq]
    unfold cleanupExpired
    rw [List.getElem?_map, hs]
    simp only [Option.map_some']
  · intro h3
    rw [reservePOST_continue_eq seats0 showId seatIds now false interfere h0 h1 h2 h3, hc1]
  · intro hall
    have hnil : (fetchReserve seats0 showId seatIds).filter (seatUnavailable now) = [] := by
      rw [List.filter_eq_nil_iff]
      intro a ha
      rcases hall a ha with hav | hexp
      · simp [avail_not_unavailable now a hav]
      · simp [expired_not_unavailable now a hexp]
    have h3 : ((fetchReserve seats0 showId seatIds).filter (seatUnavailable now)).isEmpty = true := by
      rw [hnil]
      rfl
    have hfull := updatedIds_full seats0 showId seatIds now hnod hall h2
    rw [reservePOST_continue_eq seats0 showId seatIds now true id h0 h1 h2 h3]
    unfold reserveContinue
    simp only [id_eq]
    rw [if_neg (by simp [hfull])]
    refine ⟨rfl, rfl, ?_⟩
    intro t ht hid hshow
    rcases List.mem_map.1 ht with ⟨u, hu, rfl⟩
    by_cases hm : reserveMatch showId seatIds u = true
    · rw [if_pos hm]
      exact ⟨rfl, rfl⟩
    · exfalso
      apply hm
      rw [if_neg hm] at hid hshow
      rw [cleanupState_true_eq] at hu
      rcases List.mem_map.1 hu with ⟨s, hsmem, rfl⟩
      have huid : (if (expiredIdsOf seats0 showId seatIds now).contains s.id then
          ({ s with status := some "available", reserved_until := none } : Seat)
        else s).id = s.id := by
        by_cases h : (expiredIdsOf seats0 showId seatIds now).contains s.id = true
        · rw [if_pos h]
        · rw [if_neg h]
      have hushow : (if (expiredIdsOf seats0 showId seatIds now).contains s.id then
          ({ s with status := some "available", reserved_until := none } : Seat)
        else s).show_id = s.show_id := by
        by_cases h : (expiredIdsOf seats0 showId seatIds now).contains s.id = true
        · rw [if_pos h]
        · rw [if_neg h]
      rw [huid] at hid
      rw [hushow] at hshow
      rw [reserveMatch_after_cleanup seats0 showId seatIds now hnod hall s hsmem]
      rw [hid, hshow]
      simp

/-- The hypotheses of `c5_lazy_expiry_semantics` hold at a concrete
request over one available and one expired-reserved seat; the expired hold
is treated as available and both seats end reserved by the new caller. -/
theorem c5_witness :
    seatExpiredReserved 1000 wSeatExp = true ∧
    seatUnavailable 1000 wSeatExp = false ∧
    (reservePOST [wSeatA, wSeatExp] "sh1" ["sA", "sE"] 1000 true id).1.status = 200 := by
  have hmain := c5_lazy_expiry_semantics [wSeatA, wSeatExp] "sh1" ["sA", "sE"] 1000 id
    (by decide) (by decide) (by decide) (by decide)
  have hd := hmain.2.2.2.2 (by
    intro s hsf
    fin_cases hsf <;> simp [wSeatA, wSeatExp, seatExpiredReserved, normStatus, untilMs, strLower])
  refine ⟨by decide, ?_, hd.1⟩
  have ha := hmain.1 wSeatExp (by decide) (by decide)
  exact ha.1

/-- Pointwise behaviour of the partial-update branch: after the conditional
update and the rollback of the updated ids, a matched row ends available
with its hold cleared and an unmatched row is untouched (ids pairwise
distinct). -/
lemma rollback_pointwise (seats2 : List Seat) (showId : String)
    (seatIds : List String) (holdUntil : Nat)
    (hnod : (seats2.map Seat.id).Nodup)
    (i : Nat) (s : Seat) (hs : seats2[i]? = some s) :
    (if 0 < (reserveUpdatedIds seats2 showId seatIds).length then
        rollbackReserve (applyReserve seats2 showId seatIds holdUntil)
          (reserveUpdatedIds seats2 showId seatIds)
      else applyReserve seats2 showId seatIds holdUntil)[i]? =
      some (if reserveMatch showId seatIds s then
        { s with status := some "available", reserved_until := none } else s) := by
  have hsmem : s ∈ seats2 := List.getElem?_mem hs
  by_cases hlen : 0 < (reserveUpdatedIds seats2 showId seatIds).length
  · rw [if_pos hlen]
    unfold rollbackReserve applyReserve
    rw [List.getElem?_map, List.getElem?_map, hs]
    simp only [Option.map_some']
    by_cases hm : reserveMatch showId seatIds s = true
    · rw [if_pos hm, hm, if_pos rfl]
      have hid : s.id ∈ reserveUpdatedIds seats2 showId seatIds :=
        id_mem_updated_of_match seats2 showId seatIds s hsmem hm
      have hcon : (reserveUpdatedIds seats2 showId seatIds).contains s.id = true := by
        simpa [List.elem_iff] using hid
      rw [if_pos hcon]
    · simp only [Bool.not_eq_true] at hm
      have hid : s.id ∉ reserveUpdatedIds seats2 showId seatIds :=
        id_not_mem_updated_of_not_match seats2 showId seatIds hnod s hsmem hm
      have hcon : ¬ ((reserveUpdatedIds seats2 showId seatIds).contains s.id = true) := by
        intro hc
        exact hid (by simpa [List.elem_iff] using hc)
      simp only [hm, Bool.false_eq_true, if_false]
      rw [if_neg hcon]
  · rw [if_neg hlen]
    have hupd : reserveUpdatedIds seats2 showId seatIds = [] := by
      cases hu : reserveUpdatedIds seats2 showId seatIds with
      | nil => rfl
      | cons a l => rw [hu] at hlen; exact absurd (Nat.succ_pos l.length) hlen
    unfold applyReserve
    rw [List.getElem?_map, hs]
    simp only [Option.map_some']
    by_cases hm : reserveMatch showId seatIds s = true
    · exfalso
      have hid : s.id ∈ reserveUpdatedIds seats2 showId seatIds :=
        id_mem_updated_of_match seats2 showId seatIds s hsmem hm
      rw [hupd] at hid
      cases hid
    · simp only [Bool.not_eq_true] at hm
      simp only [hm, Bool.false_eq_true, if_false]

/-- Claim C9: a requested seat whose stored status is null or empty is
classified as available by the availability check, yet the conditional
update matches only rows whose status is literally `available`, so that
seat is never reserved: the request ends in a 409 through the
partial-update branch, the null-status row is untouched, and every other
row is either untouched or rolled back to available. -/
theorem c9_null_status_seat_conflict
    (seats0 : List Seat) (showId : String) (seatIds : List String)
    (now : Nat) (cleanupOk : Bool)
    (h0 : seatIds.isEmpty = false) (h1 : (showId == "") = false)
    (h2 : (fetchReserve seats0 showId seatIds).length = seatIds.length)
    (hnod : (seats0.map Seat.id).Nodup)
    (hall : ∀ s ∈ fetchReserve seats0 showId seatIds,
      s.status = some "available" ∨ s.status = none ∨ s.status = some "")
    (hx : ∃ x ∈ fetchReserve seats0 showId seatIds, x.status = none ∨ x.status = some "") :
    (∀ s ∈ fetchReserve seats0 showId seatIds, (s.status = none ∨ s.status = some "") →
      seatUnavailable now s = false ∧ reserveMatch showId seatIds s = false) ∧
    (reservePOST seats0 showId seatIds now cleanupOk id).1.status = 409 ∧
    (reservePOST seats0 showId seatIds now cleanupOk id).1.unavailableSeatIds = none ∧
    (∀ i : Nat, ∀ s : Seat, seats0[i]? = some s →
      ((s.status = none ∨ s.status = some "") →
        (reservePOST seats0 showId seatIds now cleanupOk id).2[i]? = some s) ∧
      ((reservePOST seats0 showId seatIds now cleanupOk id).2[i]? = some s ∨
       (reservePOST seats0 showId seatIds now cleanupOk id).2[i]? =
         some { s with status := some "available", reserved_until := none })) := by
  have hnm : ∀ s : Seat, (s.status = none ∨ s.status = some "") →
      seatUnavailable now s = false ∧ reserveMatch showId seatIds s = false := by
    intro s hst
    rcases hst with h | h
    · exact ⟨by simp [seatUnavailable, normStatus, h], by simp [reserveMatch, h]⟩
    · exact ⟨by simp [seatUnavailable, normStatus, h], by simp [reserveMatch, h]⟩
  have hexpnil : expiredIdsOf seats0 showId seatIds now = [] := by
    unfold expiredIdsOf
    have hn : (fetchReserve seats0 showId seatIds).filter (seatExpiredReserved now) = [] := by
      rw [List.filter_eq_nil_iff]
      intro a ha
      rcases hall a ha with h | h | h <;>
        simp [seatExpiredReserved, normStatus, strLower, h]
    rw [hn]
    rfl
  have hclean : reserveCleanupState seats0 showId seatIds now cleanupOk = seats0 := by
    unfold reserveCleanupState
    rw [hexpnil]
    simp
  have h3 : ((fetchReserve seats0 showId seatIds).filter (seatUnavailable now)).isEmpty = true := by
    have hn : (fetchReserve seats0 showId seatIds).filter (seatUnavailable now) = [] := by
      rw [List.filter_eq_nil_iff]
      intro a ha
      rcases hall a ha with h | h | h
      · simp [avail_not_unavailable now a h]
      · simp [(hnm a (Or.inl h)).1]
      · simp [(hnm a (Or.inr h)).1]
    rw [hn]
    rfl
  obtain ⟨x, hxf, hxst⟩ := hx
  have hxmem : x ∈ seats0 := (List.mem_filter.1 hxf).1
  have hxp : (seatIds.contains x.id && x.show_id == showId) = true := (List.mem_filter.1 hxf).2
  have hxq : reserveMatch showId seatIds x = false := (hnm x hxst).2
  have himp : ∀ s ∈ seats0, reserveMatch showId seatIds s = true →
      (seatIds.contains s.id && s.show_id == showId) = true := by
    intro s _ hm
    unfold reserveMatch at hm
    simp only [Bool.and_eq_true] at hm
    simp only [Bool.and_eq_true]
    exact ⟨hm.1.1, hm.1.2⟩
  have hlt := length_filter_lt_of_witness
    (fun s => seatIds.contains s.id && s.show_id == showId)
    (reserveMatch showId seatIds) seats0 himp x hxmem hxp hxq
  have hfetch : fetchReserve seats0 showId seatIds =
      seats0.filter (fun s => seatIds.contains s.id && s.show_id == showId) := rfl
  have hrace : (reserveUpdatedIds seats0 showId seatIds).length ≠ seatIds.length := by
    unfold reserveUpdatedIds
    rw [List.length_map]
    rw [hfetch] at h2
    omega
  rw [reservePOST_continue_eq seats0 showId seatIds now cleanupOk id h0 h1 h2 h3]
  unfold reserveContinue
  simp only [id_eq]
  rw [hclean]
  rw [if_pos (by simpa [bne_iff_ne] using hrace)]
  refine ⟨fun s _ hst => hnm s hst, rfl, rfl, ?_⟩
  intro i s hs
  have hpt := rollback_pointwise seats0 showId seatIds (now + HOLD_MS) hnod i s hs
  constructor
  · intro hst
    simp only [(hnm s hst).2, Bool.false_eq_true, if_false] at hpt
    exact hpt
  · by_cases hm : reserveMatch showId seatIds s = true
    · rw [if_pos hm] at hpt
      exact Or.inr hpt
    · simp only [Bool.not_eq_true] at hm
      simp only [hm, Bool.false_eq_true, if_false] at hpt
      exact Or.inl hpt

/-- The hypotheses of `c9_null_status_seat_conflict` hold at a concrete
request pairing an available seat with a null-status seat: the request
ends 409 and the null-status row is unchanged. -/
theorem c9_witness :
    seatUnavailable 1000 wSeatNull = false ∧
    (reservePOST [wSeatA, wSeatNull] "sh1" ["sA", "sN"] 1000 true id).1.status = 409 ∧
    (reservePOST [wSeatA, wSeatNull] "sh1" ["sA", "sN"] 1000 true id).2[1]? = some wSeatNull := by
  have hmain := c9_null_status_seat_conflict [wSeatA, wSeatNull] "sh1" ["sA", "sN"] 1000 true
    (by decide) (by decide) (by decide) (by decide)
    (by intro s hsf; fin_cases hsf <;> simp [wSeatA, wSeatNull])
    ⟨wSeatNull, by decide, Or.inl rfl⟩
  refine ⟨(hmain.1 wSeatNull (by decide) (Or.inl rfl)).1, hmain.2.1, ?_⟩
  exact (hmain.2.2.2 1 wSeatNull (by decide)).1 (Or.inl rfl)

/-- Unfolding of the reserve handler on the seat-count-mismatch branch. -/
lemma reservePOST_notfound_eq (seats0 : List Seat) (showId : String)
    (seatIds : List String) (now : Nat) (cleanupOk : Bool)
    (interfere : List Seat → List Seat)
    (h0 : seatIds.isEmpty = false) (h1 : (showId == "") = false)
    (h2 : (fetchReserve seats0 showId seatIds).length ≠ seatIds.length) :
    reservePOST seats0 showId seatIds now cleanupOk interfere =
      (errResp 400 "Noen av setene finnes ikke", seats0) := by
  unfold reservePOST
  simp only [h0, h1, Bool.or_self, Bool.false_eq_true, if_false]
  rw [if_pos (by simpa [bne_iff_ne] using h2)]

/-- A store read keyed on pairwise-distinct ids returns strictly fewer
rows than a request list that repeats an id, so the count check fails. -/
lemma filter_length_ne_of_dup (seats : List Seat) (p : Seat → Bool) (ids : List String)
    (hp : ∀ s, p s = true → s.id ∈ ids)
    (hnod : (seats.map Seat.id).Nodup) (hdup : ¬ ids.Nodup) :
    (seats.filter p).length ≠ ids.length := by
  intro hlen
  have hsl : List.Sublist ((seats.filter p).map Seat.id) (seats.map Seat.id) :=
    List.Sublist.map Seat.id (List.filter_sublist seats)
  have h1 : ((seats.filter p).map Seat.id).Nodup := List.Nodup.sublist hsl hnod
  have h2 : (seats.filter p).map Seat.id ⊆ ids := by
    intro a ha
    rcases List.mem_map.1 ha with ⟨t, htf, rfl⟩
    exact hp t (List.mem_filter.1 htf).2
  have h3 : List.Subperm ((seats.filter p).map Seat.id) ids :=
    List.subperm_of_subset h1 h2
  have h4 : ids.length ≤ ((seats.filter p).map Seat.id).length := by
    rw [List.length_map, hlen]
  have h5 : List.Perm ((seats.filter p).map Seat.id) ids := h3.perm_of_length_le h4
  exact hdup ((List.Perm.nodup_iff h5).1 h1)

/-- Claim C10: a reserve or confirm request whose seat id list repeats an
id is rejected with the 400 "seats do not exist" error — the store returns
one row per distinct id, so the fetched count can never equal the request
length — and no state is changed. -/
theorem c10_duplicate_ids_rejected :
    (∀ (seats0 : List Seat) (showId : String) (seatIds : List String)
       (now : Nat) (cleanupOk : Bool) (interfere : List Seat → List Seat),
      (seats0.map Seat.id).Nodup → ¬ seatIds.Nodup → (showId == "") = false →
      reservePOST seats0 showId seatIds now cleanupOk interfere =
        (errResp 400 "Noen av setene finnes ikke", seats0)) ∧
    (∀ (db : DB) (showId : String) (seatIds : List String)
       (cn ce : String) (cp sr : Option String) (ta : Int) (dc : Option String)
       (uid newId ref nowIso : String) (eok : Bool) (eerr : Option String)
       (showRow : ShowRow),
      (db.seats.map Seat.id).Nodup → ¬ seatIds.Nodup →
      (showId == "") = false → (cn == "") = false → (ce == "") = false →
      (0 : Int) < ta →
      db.shows.find? (fun (sh : ShowRow) => sh.id == showId) = some showRow →
      confirmPOST db showId seatIds cn ce cp sr ta dc (some uid) newId ref nowIso eok eerr =
        (confirmErr 400 "Noen av setene finnes ikke", db)) := by
  constructor
  · intro seats0 showId seatIds now cleanupOk interfere hnod hdup h1
    have h0 : seatIds.isEmpty = false := by
      cases seatIds with
      | nil => exact absurd List.nodup_nil hdup
      | cons a l => rfl
    have hcnt : (fetchReserve seats0 showId seatIds).length ≠ seatIds.length := by
      apply filter_length_ne_of_dup seats0 _ seatIds _ hnod hdup
      intro s hs
      simp only [Bool.and_eq_true] at hs
      exact List.elem_iff.1 hs.1
    exact reservePOST_notfound_eq seats0 showId seatIds now cleanupOk interfere h0 h1 hcnt
  · intro db showId seatIds cn ce cp sr ta dc uid newId ref nowIso eok eerr showRow
    intro hnod hdup hsid hcn hce hta hshow
    have h0 : seatIds.isEmpty = false := by
      cases seatIds with
      | nil => exact absurd List.nodup_nil hdup
      | cons a l => rfl
    have hcnt : (fetchConfirm db.seats seatIds).length ≠ seatIds.length := by
      apply filter_length_ne_of_dup db.seats _ seatIds _ hnod hdup
      intro s hs
      exact List.elem_iff.1 hs
    unfold confirmPOST
    have hval : ¬ ((showId == "" || seatIds.isEmpty || cn == "" || ce == ""
        || decide (ta ≤ 0)) = true) := by
      simp [hsid, hcn, hce, h0, not_le.2 hta]
    rw [if_neg hval]
    simp only [hshow]
    rw [if_pos (show ((fetchConfirm db.seats seatIds).length != seatIds.length) = true by
      simpa [bne_iff_ne] using hcnt)]

/-- The hypotheses of `c10_duplicate_ids_rejected` hold at a concrete
duplicate-id request against both handlers. -/
theorem c10_witness :
    reservePOST [wSeatA, wSeatB] "sh1" ["sA", "sA"] 1000 true id =
      (errResp 400 "Noen av setene finnes ikke", [wSeatA, wSeatB]) ∧
    confirmPOST ⟨[wSeatA, wSeatB], [wShow], [], []⟩ "sh1" ["sA", "sA"] "Ola" "ola@x.no"
        none none 200 none (some "u1") "b1" "REF1" "t0" true none =
      (confirmErr 400 "Noen av setene finnes ikke", ⟨[wSeatA, wSeatB], [wShow], [], []⟩) := by
  constructor
  · exact c10_duplicate_ids_rejected.1 [wSeatA, wSeatB] "sh1" ["sA", "sA"] 1000 true id
      (by decide) (by decide) (by decide)
  · exact c10_duplicate_ids_rejected.2 ⟨[wSeatA, wSeatB], [wShow], [], []⟩ "sh1" ["sA", "sA"]
      "Ola" "ola@x.no" none none 200 none "u1" "b1" "REF1" "t0" true none wShow
      (by decide) (by decide) (by decide) (by decide) (by decide) (by decide) (by decide)

/-- Claim C1 (contradicted by the code): the confirmation handler performs
no server-side recomputation of `totalAmount`.  On a request whose
client-supplied total (1) differs from the sum of the requested seats'
prices (100 + 100 = 200), it returns success and persists the booking with
`total_amount_nok = 1` instead of rejecting with a ValidationError. -/
theorem c1_client_total_persisted_unchecked :
    (confirmPOST ⟨[wSeatA, wSeatB], [wShow], [], []⟩ "sh1" ["sA", "sB"] "Ola" "ola@x.no"
        none none 1 none (some "u1") "b1" "REF1" "t0" true none).1.status = 200 ∧
    (confirmPOST ⟨[wSeatA, wSeatB], [wShow], [], []⟩ "sh1" ["sA", "sB"] "Ola" "ola@x.no"
        none none 1 none (some "u1") "b1" "REF1" "t0" true none).1.success = true ∧
    (confirmPOST ⟨[wSeatA, wSeatB], [wShow], [], []⟩ "sh1" ["sA", "sB"] "Ola" "ola@x.no"
        none none 1 none (some "u1") "b1" "REF1" "t0" true none).2.bookings.map
      Booking.total_amount_nok = [1] ∧
    ([wSeatA, wSeatB].map Seat.price_nok).sum = 200 ∧ (1 : Int) ≠ 200 := by decide

/-- Claim C7 (contradicted by the code): the confirmation handler's seat
read has no `show_id` filter, so a request naming a seat of another show
succeeds and persists a booking for show `sh1` whose seat belongs to show
`sh2`, violating the same-show invariant; the cross-show seat is even
flipped to sold. -/
theorem c7_cross_show_seat_in_booking :
    (confirmPOST ⟨[wSeatOther], [wShow], [], []⟩ "sh1" ["sX"] "Ola" "ola@x.no"
        none none 100 none (some "u1") "b1" "REF1" "t0" true none).1.status = 200 ∧
    (confirmPOST ⟨[wSeatOther], [wShow], [], []⟩ "sh1" ["sX"] "Ola" "ola@x.no"
        none none 100 none (some "u1") "b1" "REF1" "t0" true none).2.bookings.map
      Booking.show_id = ["sh1"] ∧
    (confirmPOST ⟨[wSeatOther], [wShow], [], []⟩ "sh1" ["sX"] "Ola" "ola@x.no"
        none none 100 none (some "u1") "b1" "REF1" "t0" true none).2.bookings.map
      Booking.seat_ids = [["sX"]] ∧
    wSeatOther.show_id = "sh2" ∧ ("sh2" : String) ≠ "sh1" ∧
    (confirmPOST ⟨[wSeatOther], [wShow], [], []⟩ "sh1" ["sX"] "Ola" "ola@x.no"
        none none 100 none (some "u1") "b1" "REF1" "t0" true none).2.seats.map
      Seat.status = [some "sold"] := by decide

/-- Any confirmation response that is not a success leaves the seats and
bookings tables exactly as they were: every mutation sits on the commit
path behind all the checks. -/
lemma confirm_fail_unchanged (db : DB) (showId : String) (seatIds : List String)
    (cn ce : String) (cp sr : Option String) (ta : Int) (dc : Option String)
    (user : Option String) (newId ref nowIso : String) (eok : Bool) (eerr : Option String) :
    (confirmPOST db showId seatIds cn ce cp sr ta dc user newId ref nowIso eok eerr).1.success = false →
      (confirmPOST db showId seatIds cn ce cp sr ta dc user newId ref nowIso eok eerr).2.seats = db.seats ∧
      (confirmPOST db showId seatIds cn ce cp sr ta dc user newId ref nowIso eok eerr).2.bookings = db.bookings := by
  simp only [confirmPOST]
  split
  · intro _
    exact ⟨rfl, rfl⟩
  · split
    · intro _
      exact ⟨rfl, rfl⟩
    · split
      · intro _
        exact ⟨rfl, rfl⟩
      · split
        · intro _
          exact ⟨rfl, rfl⟩
        · split
          · intro _
            exact ⟨rfl, rfl⟩
          · intro hsucc
            exfalso
            simp [confirmCommit] at hsucc

/-- Claim C3: booking confirmation is all-or-nothing with respect to
invalid seats.  If some requested seat is sold or blocked (or the fetched
seat count does not match), the handler rejects — its response is not a
success — with no seat row mutated and no booking row created; in the
sold/blocked case the rejection is a 400 whose message reports the blocked
count when any seat is blocked and otherwise the sold count; and more
generally every non-success response leaves seats and bookings unchanged
(`confirm_fail_unchanged` is the general statement the last conjunct
instantiates). -/
theorem c3_confirm_all_or_nothing
    (db : DB) (showId : String) (seatIds : List String)
    (cn ce : String) (cp sr : Option String) (ta : Int) (dc : Option String)
    (user : Option String) (newId ref nowIso : String) (eok : Bool) (eerr : Option String)
    (hbad : (∃ s ∈ fetchConfirm db.seats seatIds,
        s.status = some "sold" ∨ s.status = some "blocked") ∨
      (fetchConfirm db.seats seatIds).length ≠ seatIds.length) :
    (confirmPOST db showId seatIds cn ce cp sr ta dc user newId ref nowIso eok eerr).1.success = false ∧
    (confirmPOST db showId seatIds cn ce cp sr ta dc user newId ref nowIso eok eerr).2.seats = db.seats ∧
    (confirmPOST db showId seatIds cn ce cp sr ta dc user newId ref nowIso eok eerr).2.bookings = db.bookings ∧
    (∀ bad : List Seat,
      (0 < (bad.filter (fun s => s.status == some "blocked")).length →
        confirmUnavailableMsg bad =
          toString (bad.filter (fun s => s.status == some "blocked")).length ++
            " av setene er blokkert") ∧
      ((bad.filter (fun s => s.status == some "blocked")).length = 0 →
        0 < (bad.filter (fun s => s.status == some "sold")).length →
        confirmUnavailableMsg bad =
          toString (bad.filter (fun s => s.status == some "sold")).length ++
            " av setene er allerede solgt")) ∧
    (∀ (uid : String), user = some uid →
      ∀ (showRow : ShowRow),
      db.shows.find? (fun (sh : ShowRow) => sh.id == showId) = some showRow →
      ((showId == "" || seatIds.isEmpty || cn == "" || ce == "" || decide (ta ≤ 0)) = false) →
      (fetchConfirm db.seats seatIds).length = seatIds.length →
      (confirmPOST db showId seatIds cn ce cp sr ta dc user newId ref nowIso eok eerr).1.status = 400 ∧
      (confirmPOST db showId seatIds cn ce cp sr ta dc user newId ref nowIso eok eerr).1.error =
        some (confirmUnavailableMsg ((fetchConfirm db.seats seatIds).filter confirmBad))) := by
  have hsucc : (confirmPOST db showId seatIds cn ce cp sr ta dc user newId ref nowIso eok eerr).1.success = false := by
    simp only [confirmPOST]
    split
    · rfl
    · split
      · rfl
      · split
        · rfl
        · split
          · rfl
          · split
            · rfl
            · rename_i hcnt hne
              exfalso
              rcases hbad with ⟨s, hsf, hst⟩ | hmis
              · apply hne
                have hb : confirmBad s = true := by
                  rcases hst with h | h <;> simp [confirmBad, h]
                have hmem : s ∈ (fetchConfirm db.seats seatIds).filter confirmBad :=
                  List.mem_filter.2 ⟨hsf, hb⟩
                cases hfl : (fetchConfirm db.seats seatIds).filter confirmBad with
                | nil => rw [hfl] at hmem; cases hmem
                | cons a l => simp [hfl]
              · exact hcnt (by simpa [bne_iff_ne] using hmis)
  obtain ⟨hseats, hbooks⟩ := confirm_fail_unchanged db showId seatIds cn ce cp sr ta dc
    user newId ref nowIso eok eerr hsucc
  refine ⟨hsucc, hseats, hbooks, ?_, ?_⟩
  · intro bad
    constructor
    · intro hb
      simp [confirmUnavailableMsg, hb]
    · intro hb hsold
      simp [confirmUnavailableMsg, hb, hsold]
  · intro uid hu showRow hs hv hcount
    subst hu
    have hbadseat : ∃ s ∈ fetchConfirm db.seats seatIds,
        s.status = some "sold" ∨ s.status = some "blocked" := by
      rcases hbad with h | h
      · exact h
      · exact absurd hcount h
    obtain ⟨s, hsf, hst⟩ := hbadseat
    have hb : confirmBad s = true := by
      rcases hst with h | h <;> simp [confirmBad, h]
    have hmem : s ∈ (fetchConfirm db.seats seatIds).filter confirmBad :=
      List.mem_filter.2 ⟨hsf, hb⟩
    have hnemp : ((! ((fetchConfirm db.seats seatIds).filter confirmBad).isEmpty) = true) := by
      cases hfl : (fetchConfirm db.seats seatIds).filter confirmBad with
      | nil => rw [hfl] at hmem; cases hmem
      | cons a l => simp [hfl]
    simp only [confirmPOST]
    rw [if_neg (by simp [hv])]
    simp only [hs]
    rw [if_neg (show ¬ (((fetchConfirm db.seats seatIds).length != seatIds.length) = true) by
      simp [bne_iff_ne, hcount])]
    rw [if_pos hnemp]
    exact ⟨rfl, rfl⟩

/-- The hypotheses of `c3_confirm_all_or_nothing` hold at a concrete
request containing a sold seat: the confirmation is rejected with the
sold-count message and the store is unchanged. -/
theorem c3_witness :
    (confirmPOST ⟨[wSeatA, wSeatSold], [wShow], [], []⟩ "sh1" ["sA", "sS"] "Ola" "ola@x.no"
        none none 200 none (some "u1") "b1" "REF1" "t0" true none).1.success = false ∧
    (confirmPOST ⟨[wSeatA, wSeatSold], [wShow], [], []⟩ "sh1" ["sA", "sS"] "Ola" "ola@x.no"
        none none 200 none (some "u1") "b1" "REF1" "t0" true none).2.bookings = [] ∧
    (confirmPOST ⟨[wSeatA, wSeatSold], [wShow], [], []⟩ "sh1" ["sA", "sS"] "Ola" "ola@x.no"
        none none 200 none (some "u1") "b1" "REF1" "t0" true none).1.error =
      some "1 av setene er allerede solgt" := by
  have hmain := c3_confirm_all_or_nothing ⟨[wSeatA, wSeatSold], [wShow], [], []⟩ "sh1"
    ["sA", "sS"] "Ola" "ola@x.no" none none 200 none (some "u1") "b1" "REF1" "t0" true none
    (Or.inl ⟨wSeatSold, by decide, Or.inl rfl⟩)
  refine ⟨hmain.1, hmain.2.2.1, ?_⟩
  have hmsg := (hmain.2.2.2.2 "u1" rfl wShow (by decide) (by decide) (by decide)).2
  rw [hmsg]
  decide

/-- Mapping an update keyed on the new booking id over the store after the
insert changes only the inserted row. -/
lemma map_upd_append (l : List Booking) (newId : String) (f : Booking → Booking)
    (b0 : Booking) (hold : ∀ b ∈ l, (b.id == newId) = false)
    (hb0 : (b0.id == newId) = true) :
    (l ++ [b0]).map (fun b => if b.id == newId then f b else b) = l ++ [f b0] := by
  rw [List.map_append]
  congr 1
  · exact map_eq_self_of_mem _ l (fun b hb => by rw [if_neg (by simp [hold b hb])])
  · simp only [List.map_cons, List.map_nil]
    rw [if_pos hb0]

/-- Claim C8: email dispatch failure is non-fatal.  Once the request
reaches the commit path, whatever the email collaborator's outcome
`(eok, eerr)`, the handler returns 200/success with the bookingId and the
bookingReference, `emailSent` is exactly `eok`, the email error is
surfaced in the response, the persisted booking stands (appended,
confirmed, `ticket_sent = eok` — recorded false on failure) and the
requested seats are flipped to sold with their holds cleared. -/
theorem c8_email_failure_nonfatal
    (db : DB) (showId : String) (seatIds : List String)
    (cn ce : String) (cp sr : Option String) (ta : Int) (dc : Option String)
    (uid newId ref nowIso : String) (eok : Bool) (eerr : Option String)
    (hv : (showId == "" || seatIds.isEmpty || cn == "" || ce == "" || decide (ta ≤ 0)) = false)
    (showRow : ShowRow)
    (hs : db.shows.find? (fun (sh : ShowRow) => sh.id == showId) = some showRow)
    (hcount : (fetchConfirm db.seats seatIds).length = seatIds.length)
    (hgood : (fetchConfirm db.seats seatIds).filter confirmBad = [])
    (hnew : ∀ b ∈ db.bookings, (b.id == newId) = false) :
    (confirmPOST db showId seatIds cn ce cp sr ta dc (some uid) newId ref nowIso eok eerr).1 =
      ⟨200, none, true, some newId, some ref, some eok, eerr⟩ ∧
    (∃ b : Booking,
      (confirmPOST db showId seatIds cn ce cp sr ta dc (some uid) newId ref nowIso eok eerr).2.bookings =
        db.bookings ++ [b] ∧
      b.id = newId ∧ b.status = "confirmed" ∧ b.ticket_sent = eok ∧
      b.booking_reference = ref ∧ b.show_id = showId ∧ b.seat_ids = seatIds ∧
      b.total_amount_nok = ta) ∧
    (∀ i : Nat, ∀ s : Seat, db.seats[i]? = some s →
      (confirmPOST db showId seatIds cn ce cp sr ta dc (some uid) newId ref nowIso eok eerr).2.seats[i]? =
        some (if seatIds.contains s.id then
          { s with status := some "sold", reserved_until := none } else s)) := by
  have hred : confirmPOST db showId seatIds cn ce cp sr ta dc (some uid) newId ref nowIso eok eerr =
      confirmCommit db showRow (fetchConfirm db.seats seatIds) showId seatIds cn ce cp sr ta dc
        uid newId ref nowIso eok eerr := by
    simp only [confirmPOST]
    rw [if_neg (by simp [hv])]
    simp only [hs]
    rw [if_neg (show ¬ (((fetchConfirm db.seats seatIds).length != seatIds.length) = true) by
      simp [bne_iff_ne, hcount])]
    rw [if_neg (show ¬ ((!((fetchConfirm db.seats seatIds).filter confirmBad).isEmpty) = true) by
      rw [hgood]
      simp)]
  rw [hred]
  refine ⟨rfl, ?_, ?_⟩
  · cases dc with
    | none =>
      simp only [confirmCommit]
      rw [map_upd_append db.bookings newId _ _ hnew (by simp)]
      rw [map_upd_append db.bookings newId _ _ hnew (by simp)]
      exact ⟨_, rfl, rfl, rfl, rfl, rfl, rfl, rfl, rfl⟩
    | some c =>
      simp only [confirmCommit]
      cases hf : List.find? (fun (d : DiscountCode) => d.code == c) db.discounts with
      | none =>
        simp only [hf]
        rw [map_upd_append db.bookings newId _ _ hnew (by simp)]
        rw [map_upd_append db.bookings newId _ _ hnew (by simp)]
        rw [map_upd_append db.bookings newId _ _ hnew (by simp)]
        exact ⟨_, rfl, rfl, rfl, rfl, rfl, rfl, rfl, rfl⟩
      | some dcode =>
        simp only [hf]
        rw [map_upd_append db.bookings newId _ _ hnew (by simp)]
        rw [map_upd_append db.bookings newId _ _ hnew (by simp)]
        rw [map_upd_append db.bookings newId _ _ hnew (by simp)]
        exact ⟨_, rfl, rfl, rfl, rfl, rfl, rfl, rfl, rfl⟩
  · intro i s hsi
    cases dc with
    | none =>
      simp only [confirmCommit]
      rw [List.getElem?_map, hsi]
      simp only [Option.map_some']
    | some c =>
      simp only [confirmCommit]
      cases hf : List.find? (fun (d : DiscountCode) => d.code == c) db.discounts with
      | none =>
        simp only [hf]
        rw [List.getElem?_map, hsi]
        simp only [Option.map_some']
      | some dcode =>
        simp only [hf]
        rw [List.getElem?_map, hsi]
        simp only [Option.map_some']

/-- The hypotheses of `c8_email_failure_nonfatal` hold at a concrete
request whose email dispatch fails: the booking is returned and persisted
with `ticket_sent = false`, the error message is surfaced and the seats
are sold. -/
theorem c8_witness :
    (confirmPOST ⟨[wSeatA, wSeatB], [wShow], [], []⟩ "sh1" ["sA", "sB"] "Ola" "ola@x.no"
        none none 200 none (some "u1") "b1" "REF1" "t0" false (some "smtp down")).1 =
      ⟨200, none, true, some "b1", some "REF1", some false, some "smtp down"⟩ ∧
    (confirmPOST ⟨[wSeatA, wSeatB], [wShow], [], []⟩ "sh1" ["sA", "sB"] "Ola" "ola@x.no"
        none none 200 none (some "u1") "b1" "REF1" "t0" false (some "smtp down")).2.bookings.map
      Booking.ticket_sent = [false] := by
  have hmain := c8_email_failure_nonfatal ⟨[wSeatA, wSeatB], [wShow], [], []⟩ "sh1" ["sA", "sB"]
    "Ola" "ola@x.no" none none 200 none "u1" "b1" "REF1" "t0" false (some "smtp down")
    (by decide) wShow (by decide) (by decide) (by decide) (by intro b hb; cases hb)
  obtain ⟨b, hbk, _, _, hts, _⟩ := hmain.2.1
  refine ⟨hmain.1, ?_⟩
  rw [hbk]
  simp [hts]
